import Mathlib

/-!
# Verification of the svelte-sonner toast store (`src/lib/state.ts`)

Shallow embedding of the toast-notification state container.  The source is a
single TypeScript module holding two observable registries (`toasts`,
`heights`) and a module-level counter (`toastsCounter`).  We model the whole
mutable state as a `ToastState` record and each store method as a pure
function from state (plus arguments) to state (plus return value).

JavaScript dynamic values are modelled as follows:
* toast ids are numbers or strings (`ToastId`);
* a message is either plain text or an opaque renderable component handle
  (`Content`), mirroring `string | ComponentType`;
* optional / possibly-`undefined` fields are `Option`s, where `none` means the
  key is absent or `undefined`;
* the arbitrary extra caller-supplied fields carried by `ExternalToast` are an
  association list `extra : List (String × String)` looked up by first match;
  the JS object spread `{...toast, ...data}` (data keys shadow toast keys) is
  modelled by prepending the new bindings (`data.extra ++ toast.extra`).
-/

namespace Sonner

/-- A toast id: `number | string` in the source. -/
inductive ToastId where
  | num (n : Int)
  | str (s : String)
deriving DecidableEq, Repr

/-- JS truthiness of an id value: `0` and the empty string are falsy.
Used by `custom` (`data?.id || toastsCounter++`). -/
def ToastId.isTruthy : ToastId → Bool
  | .num n => n ≠ 0
  | .str s => s.length > 0

/-- A message payload: `string | ComponentType`.  Component references are
opaque; we model them by a numeric handle. -/
inductive Content where
  | text (s : String)
  | comp (handle : Nat)
deriving DecidableEq, Repr

/-- The toast kinds of `ToastTypes`. -/
inductive ToastType where
  | default
  | success
  | error
  | info
  | warning
  | loading
deriving DecidableEq, Repr

/-- The argument of `create`: `ExternalToast & {message?, type?, promise?}`.
`none` in a field means the key is absent (or `undefined`).  `extra` carries
the arbitrary remaining caller-supplied fields of `ExternalToast`. -/
structure CreateData where
  id : Option ToastId := none
  message : Option Content := none
  type : Option ToastType := none
  dismissable : Option Bool := none
  component : Option Nat := none
  extra : List (String × String) := []

/-- A notification record (`ToastT`). `updated := none` models the absence of
the `updated` key on a freshly added toast (the source only writes
`updated: true/false` in the merge branch of `create`). -/
structure ToastT where
  id : ToastId
  title : Option Content := none
  dismissable : Bool := true
  type : ToastType := .default
  updated : Option Bool := none
  component : Option Nat := none
  extra : List (String × String) := []
deriving DecidableEq, Repr

/-- A height record (`HeightT`): `{ toastId, height }`. -/
structure HeightT where
  toastId : ToastId
  height : Int
deriving DecidableEq, Repr

/-- The whole mutable state of the module: the two writable stores and the
module-level `toastsCounter`. -/
structure ToastState where
  toasts : List ToastT := []
  heights : List HeightT := []
  counter : Int := 0
deriving DecidableEq, Repr

/-- The initial state: both registries empty, `toastsCounter = 0`. -/
def initialState : ToastState := {}

/-- First-match lookup in an association list of extra fields (JS property
access on the modelled object). -/
def lookupExtra (l : List (String × String)) (k : String) : Option String :=
  (l.find? (fun kv => kv.1 == k)).map (fun kv => kv.2)

/-- Id resolution of `create` (lines 24-27):
`typeof data?.id === 'number' || (data.id && data.id?.length > 0) ? data.id
: toastsCounter++`.  A numeric id (including `0`) is kept; a string id is kept
iff non-empty; otherwise the counter is consumed.  Returns the resolved id and
the new counter. -/
def resolveCreateId (dataId : Option ToastId) (counter : Int) : ToastId × Int :=
  match dataId with
  | some (.num n) => (.num n, counter)
  | some (.str s) => if s.length > 0 then (.str s, counter) else (.num counter, counter + 1)
  | none => (.num counter, counter + 1)

/-- The record built by the merge branch of `create` (lines 42-51):
`{...toast, ...data, id, title: message, dismissable, type, updated: true}`.
The `...data` spread lets `data.component` and the extra keys shadow the old
toast's; `id`, `title`, `dismissable`, `type`, `updated` are then overwritten
outright. -/
def mergeToast (t : ToastT) (data : CreateData) (id : ToastId)
    (dismissable : Bool) (ty : ToastType) : ToastT :=
  { id := id
    title := data.message
    dismissable := dismissable
    type := ty
    updated := some true
    component := match data.component with
      | some c => some c
      | none => t.component
    extra := data.extra ++ t.extra }

/-- The record prepended by the `addToast` branch of `create` (line 59):
`{...rest, id, title: message, dismissable, type}` where `rest` is `data`
without `message`; the `updated` key is absent. -/
def freshToast (data : CreateData) (id : ToastId) (dismissable : Bool)
    (ty : ToastType) : ToastT :=
  { id := id, title := data.message, dismissable := dismissable, type := ty,
    updated := none, component := data.component, extra := data.extra }

/-- `create(data)` (lines 16-63).  Resolves the id, applies the defaults
`dismissable = true`, `type = 'default'`, then either maps over the registry
(merge branch, marking the match `updated: true` and the rest
`updated: false`) or prepends a fresh record (`addToast`, lines 12-14).
Returns the id and the new state. -/
def create (st : ToastState) (data : CreateData) : ToastId × ToastState :=
  let id := (resolveCreateId data.id st.counter).1
  let counter := (resolveCreateId data.id st.counter).2
  let dismissable := data.dismissable.getD true
  let ty := data.type.getD .default
  let toasts :=
    if st.toasts.any (fun t => t.id = id) then
      st.toasts.map (fun t =>
        if t.id = id then mergeToast t data id dismissable ty
        else { t with updated := some false })
    else
      freshToast data id dismissable ty :: st.toasts
  (id, { st with toasts := toasts, counter := counter })

/-- `dismiss(id?)` (lines 65-73): with no id, clears the registry and returns
`undefined`; with an id, filters out every record with that id and returns
the id. -/
def dismiss (st : ToastState) (id : Option ToastId) : Option ToastId × ToastState :=
  match id with
  | none => (none, { st with toasts := [] })
  | some i => (some i, { st with toasts := st.toasts.filter (fun t => t.id ≠ i) })

/-- `message(message, data?)` (lines 75-77): `create({...data, type: 'default', message})`. -/
def message (st : ToastState) (m : Content) (data : Option CreateData) : ToastId × ToastState :=
  create st { data.getD {} with type := some .default, message := some m }

/-- `error(message, data?)` (lines 79-81). -/
def error (st : ToastState) (m : Content) (data : Option CreateData) : ToastId × ToastState :=
  create st { data.getD {} with type := some .error, message := some m }

/-- `success(message, data?)` (lines 83-85). -/
def success (st : ToastState) (m : Content) (data : Option CreateData) : ToastId × ToastState :=
  create st { data.getD {} with type := some .success, message := some m }

/-- `info(message, data?)` (lines 87-89). -/
def info (st : ToastState) (m : Content) (data : Option CreateData) : ToastId × ToastState :=
  create st { data.getD {} with type := some .info, message := some m }

/-- `warning(message, data?)` (lines 91-93). -/
def warning (st : ToastState) (m : Content) (data : Option CreateData) : ToastId × ToastState :=
  create st { data.getD {} with type := some .warning, message := some m }

/-- `loading(message, data?)` (lines 95-97). -/
def loading (st : ToastState) (m : Content) (data : Option CreateData) : ToastId × ToastState :=
  create st { data.getD {} with type := some .loading, message := some m }

/-- The object `{component, id, ...data}` passed by `custom` to `create`
(line 165): the spread of `data` comes last, so a present `data.id` or
`data.component` shadows the locally computed values. -/
def customPassed (component : Nat) (data : Option CreateData) (cid : ToastId) :
    CreateData :=
  let d := data.getD {}
  { d with
    component := some (d.component.getD component)
    id := some (d.id.getD cid) }

/-- `custom(component, data?)` (lines 160-168).
`const id = data?.id || toastsCounter++` consumes the counter whenever the
caller id is absent **or falsy** (`0`, `''`), and the locally computed id is
returned even when `data.id` shadows it inside `customPassed`. -/
def custom (st : ToastState) (component : Nat) (data : Option CreateData) :
    ToastId × ToastState :=
  let keep :=
    match data.bind (fun d => d.id) with
    | some i => i.isTruthy
    | none => false
  let cid := if keep then (data.bind (fun d => d.id)).getD (.num st.counter)
             else .num st.counter
  let counter := if keep then st.counter else st.counter + 1
  let st' := (create { st with counter := counter } (customPassed component data cid)).2
  (cid, st')

/-- `removeHeight(id)` (lines 170-172). -/
def removeHeight (st : ToastState) (id : ToastId) : ToastState :=
  { st with heights := st.heights.filter (fun h => h.toastId ≠ id) }

/-- `setHeight(data)` (lines 174-190): prepend when the toastId is new,
otherwise replace the matching record in place. -/
def setHeight (st : ToastState) (data : HeightT) : ToastState :=
  if st.heights.any (fun h => h.toastId = data.toastId) then
    { st with heights := st.heights.map (fun h =>
        if h.toastId = data.toastId then data else h) }
  else
    { st with heights := data :: st.heights }

/-- `reset()` (lines 192-195): clears both registries. -/
def reset (st : ToastState) : ToastState :=
  { st with toasts := [], heights := [] }

/-! ## The `promise` helper (lines 99-158)

`promise(promise, data?)` first runs synchronously: it bails out when `data`
is missing, otherwise it creates a loading toast when `data.loading` is given,
forces the thunk (`promise instanceof Promise ? promise : promise()`),
initialises `shouldDismiss = id !== undefined`, attaches the
`.then(...).catch(...).finally(...)` chain, and returns the id.

The asynchronous part is a pure function of the promise's settlement: a
resolution carries a value that may look like a failed HTTP response (a truthy
object with a boolean `ok` field that is `false`, and possibly a `status`
field); a rejection carries a reason.  `create` never throws in the model, so
the `then` handler of a resolution never falls through to `catch`.
-/

/-- The shape of a resolved value, as far as `promise` inspects it:
`response && typeof response.ok === 'boolean' && !response.ok` plus the
`status` interpolated into the error message.  `ok = none` models an absent or
non-boolean `ok` key. -/
structure ResolvedValue where
  truthy : Bool := true
  ok : Option Bool := none
  status : Option Int := none

/-- A settlement of the tracked promise.  Rejection reasons are modelled as
strings (the only use the source makes of one is passing it to
`data.error`). -/
inductive Outcome where
  | resolved (r : ResolvedValue)
  | rejected (e : String)

/-- A success handler: a literal message or a function of the resolved
value (`typeof data.success === 'function' ? data.success(response) :
data.success`). -/
inductive SuccessHandler where
  | literal (m : Content)
  | fn (f : ResolvedValue → Content)

/-- An error handler: a literal message or a function, applied either to the
string `` `HTTP error! status: ${response.status}` `` or to the rejection
reason. -/
inductive ErrorHandler where
  | literal (m : Content)
  | fn (f : String → Content)

/-- The `data` argument of `promise` (`PromiseData`).  It extends
`ExternalToast`, so an `id` (and extra fields) given here flow into the
loading `create` call.  `hasFinally` records whether the optional
`data.finally` callback is present. -/
structure PromiseData where
  loading : Option Content := none
  success : Option SuccessHandler := none
  error : Option ErrorHandler := none
  hasFinally : Bool := false
  id : Option ToastId := none
  dismissable : Option Bool := none
  extra : List (String × String) := []

/-- JS number-to-string for the `status` interpolation; an absent status
prints as `undefined`. -/
def statusText : Option Int → String
  | some n => toString n
  | none => "undefined"

/-- `` `HTTP error! status: ${response.status}` `` (line 127). -/
def httpErrorText (status : Option Int) : String :=
  "HTTP error! status: " ++ statusText status

/-- The message computed in the `!response.ok` branch (lines 124-128):
`typeof data.error === 'function' ? data.error(...) : data.error` — note that
an absent `data.error` yields `undefined`, and `create` is still called. -/
def httpErrorMessage (h : Option ErrorHandler) (status : Option Int) : Option Content :=
  match h with
  | some (.fn f) => some (f (httpErrorText status))
  | some (.literal m) => some m
  | none => none

/-- Applying a success handler to the resolved value (line 134). -/
def applySuccess (h : SuccessHandler) (r : ResolvedValue) : Content :=
  match h with
  | .literal m => m
  | .fn f => f r

/-- Applying an error handler to the rejection reason (line 143). -/
def applyError (h : ErrorHandler) (e : String) : Content :=
  match h with
  | .literal m => m
  | .fn f => f e

/-- The result of the synchronous part of `promise`. -/
structure PromiseStarted where
  returnedId : Option ToastId
  state : ToastState
  /-- whether `promise instanceof Promise ? promise : promise()` was reached,
  i.e. whether a thunk argument would have been invoked. -/
  invoked : Bool

/-- The synchronous part of `promise` (lines 100-117 and the final
`return id`): bail out on missing `data`; otherwise create the loading toast
when `data.loading !== undefined` via
`create({...data, promise, type: 'loading', message: data.loading})`. -/
def promiseStart (st : ToastState) (data : Option PromiseData) : PromiseStarted :=
  match data with
  | none => { returnedId := none, state := st, invoked := false }
  | some d =>
    match d.loading with
    | none => { returnedId := none, state := st, invoked := true }
    | some l =>
      let r := create st
        { id := d.id, message := some l, type := some .loading,
          dismissable := d.dismissable, extra := d.extra }
      { returnedId := some r.1, state := r.2, invoked := true }

/-- The `then`/`catch` part of the settlement chain (lines 119-146), given the
`id` captured by the closures.  Returns the state after the branch and the
value of `shouldDismiss` when the `finally` handler runs (it starts as
`id !== undefined` and each transition branch sets it to `false`).  The
`!response.ok` branch calls `create` even when `data.error` is absent. -/
def promiseBranch (st : ToastState) (d : PromiseData) (id : Option ToastId)
    (o : Outcome) : ToastState × Bool :=
  match o with
  | .resolved r =>
    if r.truthy && r.ok == some false then
      ((create st { id := id, type := some .error,
                    message := httpErrorMessage d.error r.status }).2, false)
    else
      match d.success with
      | some h =>
        ((create st { id := id, type := some .success,
                      message := some (applySuccess h r) }).2, false)
      | none => (st, id.isSome)
  | .rejected e =>
    match d.error with
    | some h =>
      ((create st { id := id, type := some .error,
                    message := some (applyError h e) }).2, false)
    | none => (st, id.isSome)

/-- The observable effect of the whole settlement chain. -/
structure PromiseSettled where
  state : ToastState
  /-- whether the `finally` handler dismissed the loading toast
  (`if (shouldDismiss) { dismiss(id); ... }`). -/
  dismissed : Bool
  /-- whether `data.finally?.()` invoked a callback. -/
  finallyInvoked : Bool

/-- The `finally` handler (lines 147-155): dismiss the loading toast iff
`shouldDismiss` is still true, then invoke `data.finally` when present. -/
def promiseFinallyStep (st : ToastState) (d : PromiseData) (id : Option ToastId)
    (shouldDismiss : Bool) : PromiseSettled :=
  { state := if shouldDismiss then (dismiss st id).2 else st
    dismissed := shouldDismiss
    finallyInvoked := d.hasFinally }

/-- One settlement of the tracked promise: the `then`/`catch` branch followed
by the `finally` step. -/
def promiseSettle (st : ToastState) (d : PromiseData) (id : Option ToastId)
    (o : Outcome) : PromiseSettled :=
  let br := promiseBranch st d id o
  promiseFinallyStep br.1 d id br.2

/-- A whole `promise(p, data)` call with `data` present, from the synchronous
part through the settlement `o`. -/
def promiseRun (st : ToastState) (d : PromiseData) (o : Outcome) : PromiseSettled :=
  let s := promiseStart st (some d)
  promiseSettle s.state d s.returnedId o

/-- Whether a settlement makes one of the three transition branches of
`promise` run (each of which sets `shouldDismiss = false` and calls
`create`): the failed-HTTP-response branch, the success branch (guarded by
`data.success !== undefined`), or the rejection branch (guarded by
`data.error !== undefined`). -/
def transitionOccurs (d : PromiseData) (o : Outcome) : Bool :=
  match o with
  | .resolved r =>
    if r.truthy && r.ok == some false then true else d.success.isSome
  | .rejected _ => d.error.isSome

/-! ## The operations as a step system (for the registry invariants)

Claim C2 quantifies over arbitrary sequences of the store's operations
(`create`, `dismiss`, the typed wrappers, `custom`, `setHeight`,
`removeHeight`, `reset`) started from the empty registries, so we package
those operations as a syntactic step type and a step function. -/

/-- One call of a store operation, with its arguments. -/
inductive Op where
  | createOp (d : CreateData)
  | dismissOp (i : Option ToastId)
  | messageOp (m : Content) (d : Option CreateData)
  | errorOp (m : Content) (d : Option CreateData)
  | successOp (m : Content) (d : Option CreateData)
  | infoOp (m : Content) (d : Option CreateData)
  | warningOp (m : Content) (d : Option CreateData)
  | loadingOp (m : Content) (d : Option CreateData)
  | customOp (c : Nat) (d : Option CreateData)
  | setHeightOp (h : HeightT)
  | removeHeightOp (i : ToastId)
  | resetOp

/-- Running one operation against the state. -/
def runOp (st : ToastState) : Op → ToastState
  | .createOp d => (create st d).2
  | .dismissOp i => (dismiss st i).2
  | .messageOp m d => (message st m d).2
  | .errorOp m d => (error st m d).2
  | .successOp m d => (success st m d).2
  | .infoOp m d => (info st m d).2
  | .warningOp m d => (warning st m d).2
  | .loadingOp m d => (loading st m d).2
  | .customOp c d => (custom st c d).2
  | .setHeightOp h => setHeight st h
  | .removeHeightOp i => removeHeight st i
  | .resetOp => reset st

/-- Running a whole call sequence from the empty registries. -/
def runOps (ops : List Op) : ToastState := ops.foldl runOp initialState

/-- The registry invariant of the spec: at most one notification record per
id, at most one height record per toastId. -/
def UniqueIds (st : ToastState) : Prop :=
  (st.toasts.map ToastT.id).Nodup ∧ (st.heights.map HeightT.toastId).Nodup

/-! ## General lemmas about the operations -/

/-- Property lookup on a shadow-merged extra list: the new bindings win. -/
lemma lookupExtra_append (a b : List (String × String)) (k : String) :
    lookupExtra (a ++ b) k = (lookupExtra a k).or (lookupExtra b k) := by
  unfold lookupExtra
  rw [List.find?_append]
  cases List.find? (fun kv => kv.1 == k) a <;> simp

/-- `create` never touches the height registry. -/
lemma create_heights (st : ToastState) (data : CreateData) :
    (create st data).2.heights = st.heights := rfl

/-- The id returned by `create` is the resolved id. -/
lemma create_fst (st : ToastState) (data : CreateData) :
    (create st data).1 = (resolveCreateId data.id st.counter).1 := rfl

/-- The merge branch of `create`: when a record with the resolved id exists,
the registry is mapped pointwise. -/
lemma create_toasts_merge (st : ToastState) (data : CreateData)
    (hex : st.toasts.any (fun t => t.id = (create st data).1) = true) :
    (create st data).2.toasts =
      st.toasts.map (fun t =>
        if t.id = (create st data).1 then
          mergeToast t data (create st data).1 (data.dismissable.getD true)
            (data.type.getD .default)
        else { t with updated := some false }) := by
  simp only [create, create_fst] at hex ⊢
  rw [if_pos hex]

/-- The `addToast` branch of `create`: when no record has the resolved id,
the fresh record is prepended. -/
lemma create_toasts_new (st : ToastState) (data : CreateData)
    (hnew : st.toasts.any (fun t => t.id = (create st data).1) = false) :
    (create st data).2.toasts =
      freshToast data (create st data).1 (data.dismissable.getD true)
        (data.type.getD .default) :: st.toasts := by
  simp only [create, create_fst] at hnew ⊢
  rw [if_neg (by simp [hnew])]

/-- `create` preserves distinctness of the notification ids. -/
lemma create_nodup (st : ToastState) (data : CreateData)
    (h : (st.toasts.map ToastT.id).Nodup) :
    ((create st data).2.toasts.map ToastT.id).Nodup := by
  cases hc : st.toasts.any (fun t => t.id = (create st data).1) with
  | true =>
    rw [create_toasts_merge st data hc, List.map_map]
    have : st.toasts.map
        ((fun t : ToastT => t.id) ∘ (fun t =>
          if t.id = (create st data).1 then
            mergeToast t data (create st data).1 (data.dismissable.getD true)
              (data.type.getD .default)
          else { t with updated := some false })) = st.toasts.map ToastT.id := by
      refine List.map_congr_left (fun t _ => ?_)
      by_cases hd : t.id = (create st data).1
      · simp [hd, mergeToast]
      · simp [hd]
    rw [this]
    exact h
  | false =>
    rw [create_toasts_new st data hc, List.map_cons]
    refine List.Nodup.cons ?_ h
    intro hmem
    rcases List.mem_map.mp hmem with ⟨u, hu, hid⟩
    have := List.any_eq_false.mp hc u hu
    simp only [decide_eq_true_eq] at this
    exact this (by simpa [freshToast] using hid)

/-- Replacement branch of `setHeight`. -/
lemma setHeight_heights_replace (st : ToastState) (data : HeightT)
    (hc : st.heights.any (fun el => el.toastId = data.toastId) = true) :
    (setHeight st data).heights =
      st.heights.map (fun el => if el.toastId = data.toastId then data else el) := by
  simp only [setHeight]
  rw [if_pos hc]

/-- Prepend branch of `setHeight`. -/
lemma setHeight_heights_new (st : ToastState) (data : HeightT)
    (hc : st.heights.any (fun el => el.toastId = data.toastId) = false) :
    (setHeight st data).heights = data :: st.heights := by
  simp only [setHeight]
  rw [if_neg (by simp [hc])]

/-- `setHeight` never touches the toast registry. -/
lemma setHeight_toasts (st : ToastState) (data : HeightT) :
    (setHeight st data).toasts = st.toasts := by
  simp only [setHeight]
  split <;> rfl

/-- `setHeight` preserves distinctness of the height toastIds. -/
lemma setHeight_nodup (st : ToastState) (data : HeightT)
    (h : (st.heights.map HeightT.toastId).Nodup) :
    ((setHeight st data).heights.map HeightT.toastId).Nodup := by
  cases hc : st.heights.any (fun el => el.toastId = data.toastId) with
  | true =>
    rw [setHeight_heights_replace st data hc, List.map_map]
    have : st.heights.map
        (HeightT.toastId ∘ (fun el => if el.toastId = data.toastId then data else el)) =
        st.heights.map HeightT.toastId := by
      refine List.map_congr_left (fun el _ => ?_)
      by_cases hd : el.toastId = data.toastId
      · simp [hd]
      · simp [hd]
    rw [this]
    exact h
  | false =>
    rw [setHeight_heights_new st data hc, List.map_cons]
    refine List.Nodup.cons ?_ h
    intro hmem
    rcases List.mem_map.mp hmem with ⟨u, hu, hid⟩
    have := List.any_eq_false.mp hc u hu
    simp only [decide_eq_true_eq] at this
    exact this hid

/-- The loading notification (and hence a remembered id) is created exactly
when `data.loading` is given. -/
lemma promiseStart_returnedId (st : ToastState) (d : PromiseData) :
    (promiseStart st (some d)).returnedId.isSome = d.loading.isSome := by
  cases hl : d.loading <;> simp [promiseStart, hl]

/-- The failed-HTTP-response branch runs `create` with an error type and the
(possibly `undefined`) error-handler message, and clears `shouldDismiss`. -/
lemma promiseBranch_okFalse (st : ToastState) (d : PromiseData) (id : Option ToastId)
    (r : ResolvedValue) (hok : (r.truthy && r.ok == some false) = true) :
    promiseBranch st d id (.resolved r) =
      ((create st { id := id, type := some .error,
                    message := httpErrorMessage d.error r.status }).2, false) := by
  simp [promiseBranch, hok]

/-- A resolution that does not look like a failed HTTP response, with a
success handler: success transition, `shouldDismiss` cleared. -/
lemma promiseBranch_resolved_success (st : ToastState) (d : PromiseData)
    (id : Option ToastId) (r : ResolvedValue) (h : SuccessHandler)
    (hok : (r.truthy && r.ok == some false) = false) (hs : d.success = some h) :
    promiseBranch st d id (.resolved r) =
      ((create st { id := id, type := some .success,
                    message := some (applySuccess h r) }).2, false) := by
  simp [promiseBranch, hok, hs]

/-- A plain resolution with no success handler: nothing happens and
`shouldDismiss` keeps its initial value `id !== undefined`. -/
lemma promiseBranch_resolved_noSuccess (st : ToastState) (d : PromiseData)
    (id : Option ToastId) (r : ResolvedValue)
    (hok : (r.truthy && r.ok == some false) = false) (hs : d.success = none) :
    promiseBranch st d id (.resolved r) = (st, id.isSome) := by
  simp [promiseBranch, hok, hs]

/-- A rejection with an error handler: error transition, `shouldDismiss`
cleared. -/
lemma promiseBranch_rejected_some (st : ToastState) (d : PromiseData)
    (id : Option ToastId) (e : String) (h : ErrorHandler) (he : d.error = some h) :
    promiseBranch st d id (.rejected e) =
      ((create st { id := id, type := some .error,
                    message := some (applyError h e) }).2, false) := by
  simp [promiseBranch, he]

/-- A rejection without an error handler is swallowed: nothing happens and
`shouldDismiss` keeps its initial value. -/
lemma promiseBranch_rejected_none (st : ToastState) (d : PromiseData)
    (id : Option ToastId) (e : String) (he : d.error = none) :
    promiseBranch st d id (.rejected e) = (st, id.isSome) := by
  simp [promiseBranch, he]

/-- The `shouldDismiss` value reaching the `finally` handler: its initial
value `id !== undefined`, cleared whenever a transition branch ran. -/
lemma promiseBranch_snd (st : ToastState) (d : PromiseData) (id : Option ToastId)
    (o : Outcome) :
    (promiseBranch st d id o).2 = (id.isSome && !transitionOccurs d o) := by
  cases o with
  | resolved r =>
    cases hok : (r.truthy && r.ok == some false) with
    | true => simp [promiseBranch_okFalse st d id r hok, transitionOccurs, hok]
    | false =>
      cases hs : d.success with
      | none => simp [promiseBranch_resolved_noSuccess st d id r hok hs,
          transitionOccurs, hok, hs]
      | some h => simp [promiseBranch_resolved_success st d id r h hok hs,
          transitionOccurs, hok, hs]
  | rejected e =>
    cases he : d.error with
    | none => simp [promiseBranch_rejected_none st d id e he, transitionOccurs, he]
    | some h => simp [promiseBranch_rejected_some st d id e h he, transitionOccurs, he]

/-- The state after the `finally` handler, as a function of the branch
result. -/
lemma promiseSettle_state (st : ToastState) (d : PromiseData) (id : Option ToastId)
    (o : Outcome) :
    (promiseSettle st d id o).state =
      (if (promiseBranch st d id o).2 = true
        then (dismiss (promiseBranch st d id o).1 id).2
        else (promiseBranch st d id o).1) := rfl

/-- The `dismissed` field records exactly the `shouldDismiss` flag at
`finally` time. -/
lemma promiseSettle_dismissed (st : ToastState) (d : PromiseData)
    (id : Option ToastId) (o : Outcome) :
    (promiseSettle st d id o).dismissed = (promiseBranch st d id o).2 := rfl

/-- Every single operation preserves the uniqueness invariant. -/
lemma runOp_uniqueIds (st : ToastState) (op : Op)
    (h : UniqueIds st) : UniqueIds (runOp st op) := by
  obtain ⟨ht, hh⟩ := h
  cases op with
  | createOp d =>
    exact ⟨create_nodup st d ht, by rw [runOp, create_heights]; exact hh⟩
  | dismissOp i =>
    cases i with
    | none => exact ⟨by simp [runOp, dismiss], by simp only [runOp, dismiss]; exact hh⟩
    | some i =>
      refine ⟨?_, by simp only [runOp, dismiss]; exact hh⟩
      simp only [runOp, dismiss]
      exact ht.sublist ((List.filter_sublist st.toasts).map ToastT.id)
  | messageOp m d =>
    exact ⟨create_nodup _ _ ht, by rw [runOp, message, create_heights]; exact hh⟩
  | errorOp m d =>
    exact ⟨create_nodup _ _ ht, by rw [runOp, error, create_heights]; exact hh⟩
  | successOp m d =>
    exact ⟨create_nodup _ _ ht, by rw [runOp, success, create_heights]; exact hh⟩
  | infoOp m d =>
    exact ⟨create_nodup _ _ ht, by rw [runOp, info, create_heights]; exact hh⟩
  | warningOp m d =>
    exact ⟨create_nodup _ _ ht, by rw [runOp, warning, create_heights]; exact hh⟩
  | loadingOp m d =>
    exact ⟨create_nodup _ _ ht, by rw [runOp, loading, create_heights]; exact hh⟩
  | customOp c d =>
    refine ⟨?_, by rw [runOp, custom, create_heights]; exact hh⟩
    rw [runOp, custom]
    exact create_nodup _ _ ht
  | setHeightOp hgt =>
    refine ⟨?_, ?_⟩
    · rw [runOp, setHeight_toasts]; exact ht
    · rw [runOp]; exact setHeight_nodup st hgt hh
  | removeHeightOp i =>
    refine ⟨by simp only [runOp, removeHeight]; exact ht, ?_⟩
    simp only [runOp, removeHeight]
    exact hh.sublist ((List.filter_sublist st.heights).map HeightT.toastId)
  | resetOp => exact ⟨by simp [runOp, reset], by simp [runOp, reset]⟩

/-! ## The claims -/

/-- **C5.**  `dismiss()` called with no argument empties the notification
registry and returns `undefined`; `dismiss(id)` removes exactly the records
whose id equals the argument, leaves all other records unchanged and in their
original relative order, and returns the id. -/
theorem c5_dismiss_spec (st : ToastState) :
    (dismiss st none).1 = none ∧
    (dismiss st none).2.toasts = [] ∧
    ∀ i : ToastId,
      (dismiss st (some i)).1 = some i ∧
      (dismiss st (some i)).2.toasts.Sublist st.toasts ∧
      ∀ t : ToastT, t ∈ (dismiss st (some i)).2.toasts ↔ t ∈ st.toasts ∧ t.id ≠ i := by
  refine ⟨rfl, rfl, fun i => ⟨rfl, List.filter_sublist _, fun t => ?_⟩⟩
  simp [dismiss, List.mem_filter]

/-- **C8.**  `setHeight(record)` with a toastId not present in the height
registry prepends the record; with a toastId already present it replaces that
record in place, preserving the registry's length and the order of every
record. -/
theorem c8_setHeight_spec (st : ToastState) (data : HeightT) :
    ((∀ h ∈ st.heights, h.toastId ≠ data.toastId) →
        (setHeight st data).heights = data :: st.heights) ∧
    ((∃ h ∈ st.heights, h.toastId = data.toastId) →
        (setHeight st data).heights.length = st.heights.length ∧
        ∀ k : Nat, (setHeight st data).heights[k]? =
          (st.heights[k]?).map
            (fun h => if h.toastId = data.toastId then data else h)) ∧
    (setHeight st data).toasts = st.toasts := by
  refine ⟨?_, ?_, ?_⟩
  · intro hnone
    have hc : st.heights.any (fun h => h.toastId = data.toastId) = false := by
      simp only [List.any_eq_false, decide_eq_true_eq]
      exact hnone
    simp [setHeight, hc]
  · intro hsome
    have hc : st.heights.any (fun h => h.toastId = data.toastId) = true := by
      simp only [List.any_eq_true, decide_eq_true_eq]
      exact hsome
    refine ⟨by simp [setHeight, hc], fun k => ?_⟩
    simp [setHeight, hc, List.getElem?_map]
  · unfold setHeight
    split <;> rfl

/-- Witness for **C8**: a concrete prepend and a concrete in-place
replacement. -/
theorem c8_setHeight_spec_witness :
    (setHeight { heights := [⟨.num 1, 10⟩] } ⟨.num 2, 20⟩).heights
        = [⟨.num 2, 20⟩, ⟨.num 1, 10⟩] ∧
    (setHeight { heights := [⟨.num 1, 10⟩] } ⟨.num 1, 30⟩).heights.length = 1 := by
  constructor
  · exact (c8_setHeight_spec { heights := [⟨.num 1, 10⟩] } ⟨.num 2, 20⟩).1 (by decide)
  · exact ((c8_setHeight_spec { heights := [⟨.num 1, 10⟩] } ⟨.num 1, 30⟩).2.1
      ⟨⟨.num 1, 10⟩, by decide, by decide⟩).1

/-- **C10.**  When `create` merges into an existing record, `title`,
`dismissable` and `type` are unconditionally overwritten: an omitted `message`
makes the title `undefined`, an omitted `dismissable` resets the flag to
`true`, an omitted `type` resets the kind to `'default'`, regardless of the
record's previous values. -/
theorem c10_create_overwrites (st : ToastState) (data : CreateData)
    (t : ToastT) (ht : t ∈ st.toasts) (hid : t.id = (create st data).1) :
    ∀ t' ∈ (create st data).2.toasts, t'.id = (create st data).1 →
      t'.title = data.message ∧
      t'.dismissable = data.dismissable.getD true ∧
      t'.type = data.type.getD .default := by
  have hany : st.toasts.any (fun u => u.id = (create st data).1) = true := by
    simp only [List.any_eq_true, decide_eq_true_eq]
    exact ⟨t, ht, hid⟩
  rw [create_toasts_merge st data hany]
  intro t' ht' hid'
  rcases List.mem_map.mp ht' with ⟨u, hu, rfl⟩
  by_cases hc : u.id = (create st data).1
  · simp [hc, mergeToast]
  · rw [if_neg hc] at hid'
    exact absurd hid' hc

/-- Witness for **C10**: merging `create({id: 1})` into a record that had a
title, `dismissable = false` and kind `success` resets all three fields. -/
theorem c10_create_overwrites_witness :
    ({ id := ToastId.num 1, updated := some true } : ToastT) ∈
      (create
        { toasts := [{ id := .num 1, title := some (.text "x"), dismissable := false, type := .success }] }
        { id := some (.num 1) }).2.toasts ∧
    ({ id := ToastId.num 1, updated := some true } : ToastT).title = none ∧
    ({ id := ToastId.num 1, updated := some true } : ToastT).dismissable = true ∧
    ({ id := ToastId.num 1, updated := some true } : ToastT).type = .default := by
  refine ⟨by decide, ?_⟩
  exact c10_create_overwrites
    { toasts := [{ id := .num 1, title := some (.text "x"), dismissable := false, type := .success }] }
    { id := some (.num 1) }
    { id := .num 1, title := some (.text "x"), dismissable := false, type := .success }
    (by decide) (by decide)
    { id := ToastId.num 1, updated := some true } (by decide) (by decide)

/-- **C1.**  When the resolved id of a `create` call matches an existing
record, the registry keeps its length and order, exactly the matching
positions become `updated = true` with the call's fields merged in (new extra
fields shadow old ones, `component` taken from the call when given), and every
other record is unchanged except for `updated = false`. -/
theorem c1_create_merge_spec (st : ToastState) (data : CreateData)
    (hex : ∃ t ∈ st.toasts, t.id = (create st data).1) :
    (create st data).2.toasts.length = st.toasts.length ∧
    (∀ k : Nat, ((create st data).2.toasts[k]?).map ToastT.id =
        (st.toasts[k]?).map ToastT.id) ∧
    (∀ k : Nat, ∀ t, st.toasts[k]? = some t → t.id ≠ (create st data).1 →
        (create st data).2.toasts[k]? = some { t with updated := some false }) ∧
    (∀ k : Nat, ∀ t, st.toasts[k]? = some t → t.id = (create st data).1 →
        ∃ t', (create st data).2.toasts[k]? = some t' ∧
          t'.id = (create st data).1 ∧
          t'.updated = some true ∧
          t'.title = data.message ∧
          t'.dismissable = data.dismissable.getD true ∧
          t'.type = data.type.getD .default ∧
          t'.component = data.component.or t.component ∧
          ∀ key, lookupExtra t'.extra key =
            (lookupExtra data.extra key).or (lookupExtra t.extra key)) := by
  have hany : st.toasts.any (fun t => t.id = (create st data).1) = true := by
    simp only [List.any_eq_true, decide_eq_true_eq]
    exact hex
  have hm := create_toasts_merge st data hany
  refine ⟨by rw [hm]; simp, ?_, ?_, ?_⟩
  · intro k
    rw [hm, List.getElem?_map]
    cases hk : st.toasts[k]? with
    | none => rfl
    | some u =>
      by_cases hc : u.id = (create st data).1
      · simp [hc, mergeToast]
      · simp [hc]
  · intro k t hk hne
    rw [hm, List.getElem?_map, hk]
    simp [hne]
  · intro k t hk heq
    refine ⟨mergeToast t data ((create st data).1) (data.dismissable.getD true)
      (data.type.getD .default), ?_, rfl, rfl, rfl, rfl, rfl, ?_, ?_⟩
    · rw [hm, List.getElem?_map, hk]
      simp [heq]
    · show (match data.component with
        | some c => some c
        | none => t.component) = data.component.or t.component
      cases data.component <;> rfl
    · intro key
      exact lookupExtra_append data.extra t.extra key

/-- **C2.**  For every sequence of the store's operations (`create`,
`dismiss`, the typed wrappers, `custom`, `setHeight`, `removeHeight`,
`reset`) starting from the empty registries, the notification registry holds
at most one record per id and the height registry at most one record per
toastId. -/
theorem c2_unique_ids (ops : List Op) : UniqueIds (runOps ops) := by
  suffices h : ∀ st : ToastState, UniqueIds st → UniqueIds (ops.foldl runOp st) from
    h initialState ⟨List.nodup_nil, List.nodup_nil⟩
  induction ops with
  | nil => exact fun st hst => hst
  | cons op rest ih =>
    intro st hst
    exact ih (runOp st op) (runOp_uniqueIds st op hst)

/-- **C4.**  In `promise(p, data)` the auto-dismiss flag starts true exactly
when a loading notification was created (`data.loading` given), is cleared by
every success or error transition, the `finally` step dismisses the loading
notification iff the flag is still true, and the optional `data.finally`
callback is invoked on every settlement regardless of outcome. -/
theorem c4_promise_autodismiss (st : ToastState) (d : PromiseData) (o : Outcome) :
    (promiseStart st (some d)).returnedId.isSome = d.loading.isSome ∧
    (promiseBranch (promiseStart st (some d)).state d
        (promiseStart st (some d)).returnedId o).2
      = ((promiseStart st (some d)).returnedId.isSome && !transitionOccurs d o) ∧
    (promiseRun st d o).dismissed = (d.loading.isSome && !transitionOccurs d o) ∧
    ((promiseRun st d o).dismissed = true →
      (promiseRun st d o).state =
        (dismiss (promiseBranch (promiseStart st (some d)).state d
            (promiseStart st (some d)).returnedId o).1
          (promiseStart st (some d)).returnedId).2) ∧
    ((promiseRun st d o).dismissed = false →
      (promiseRun st d o).state =
        (promiseBranch (promiseStart st (some d)).state d
          (promiseStart st (some d)).returnedId o).1) ∧
    (promiseRun st d o).finallyInvoked = d.hasFinally := by
  refine ⟨promiseStart_returnedId st d, promiseBranch_snd _ _ _ _, ?_, ?_, ?_, rfl⟩
  · show (promiseSettle (promiseStart st (some d)).state d
      (promiseStart st (some d)).returnedId o).dismissed = _
    rw [promiseSettle_dismissed, promiseBranch_snd, promiseStart_returnedId]
  · intro hdis
    show (promiseSettle (promiseStart st (some d)).state d
      (promiseStart st (some d)).returnedId o).state = _
    rw [promiseSettle_state]
    rw [show (promiseBranch (promiseStart st (some d)).state d
      (promiseStart st (some d)).returnedId o).2 = true from hdis]
    simp
  · intro hdis
    show (promiseSettle (promiseStart st (some d)).state d
      (promiseStart st (some d)).returnedId o).state = _
    rw [promiseSettle_state]
    rw [show (promiseBranch (promiseStart st (some d)).state d
      (promiseStart st (some d)).returnedId o).2 = false from hdis]
    simp

/-- Witness for **C4**: a tracked promise with only a loading message whose
rejection is swallowed — the flag stays true and the `finally` step dismisses
the loading toast; and a tracked promise whose success transition clears the
flag — the `finally` step leaves the success toast alone. -/
theorem c4_promise_autodismiss_witness :
    (promiseRun initialState { loading := some (.text "L") } (.rejected "x")).state =
      (dismiss
        (promiseBranch
          (promiseStart initialState (some { loading := some (.text "L") })).state
          { loading := some (.text "L") }
          (promiseStart initialState (some { loading := some (.text "L") })).returnedId
          (.rejected "x")).1
        (promiseStart initialState
          (some { loading := some (.text "L") })).returnedId).2 ∧
    (promiseRun initialState { success := some (.literal (.text "S")) }
        (.resolved {})).state =
      (promiseBranch
        (promiseStart initialState
          (some { success := some (.literal (.text "S")) })).state
        { success := some (.literal (.text "S")) }
        (promiseStart initialState
          (some { success := some (.literal (.text "S")) })).returnedId
        (.resolved {})).1 := by
  constructor
  · exact (c4_promise_autodismiss initialState { loading := some (.text "L") }
      (.rejected "x")).2.2.2.1 (by decide)
  · exact (c4_promise_autodismiss initialState { success := some (.literal (.text "S")) }
      (.resolved {})).2.2.2.2.1 (by decide)

/-- **C6.**  On a rejection of the tracked promise: with `data.error`
supplied, the rejection is converted into an error-kind notification (the
handler used literally, or applied to the rejection value when it is a
function); with `data.error` absent, the rejection is swallowed and produces
no notification. -/
theorem c6_promise_rejection (st : ToastState) (d : PromiseData)
    (id : Option ToastId) (e : String) :
    (d.error = none → (promiseBranch st d id (.rejected e)).1 = st) ∧
    (∀ h, d.error = some h →
      (promiseBranch st d id (.rejected e)).1 =
        (create st { id := id, type := some .error,
                     message := some (applyError h e) }).2) := by
  constructor
  · intro he
    rw [promiseBranch_rejected_none st d id e he]
  · intro h he
    rw [promiseBranch_rejected_some st d id e h he]

/-- Witness for **C6**: `promise(p, {loading: "L", error: "E"})` whose
promise rejects — the loading toast transitions to an error toast titled
`"E"`; and with a function handler the rejection value is used; and with no
handler the registry is untouched. -/
theorem c6_promise_rejection_witness :
    (promiseBranch
        (promiseStart initialState
          (some { loading := some (.text "L"),
                  error := some (.literal (.text "E")) })).state
        { loading := some (.text "L"), error := some (.literal (.text "E")) }
        (promiseStart initialState
          (some { loading := some (.text "L"),
                  error := some (.literal (.text "E")) })).returnedId
        (.rejected "boom")).1.toasts.map (fun t => (t.type, t.title, t.updated))
      = [(ToastType.error, some (Content.text "E"), some true)] ∧
    (promiseBranch initialState { error := some (.fn Content.text) } none
        (.rejected "boom")).1.toasts.map ToastT.title
      = [some (Content.text "boom")] ∧
    (promiseBranch initialState {} none (.rejected "boom")).1 = initialState := by
  refine ⟨?_, ?_, ?_⟩
  · rw [(c6_promise_rejection
      (promiseStart initialState
        (some { loading := some (.text "L"),
                error := some (.literal (.text "E")) })).state
      { loading := some (.text "L"), error := some (.literal (.text "E")) }
      (promiseStart initialState
        (some { loading := some (.text "L"),
                error := some (.literal (.text "E")) })).returnedId
      "boom").2 (.literal (.text "E")) rfl]
    decide
  · rw [(c6_promise_rejection initialState { error := some (.fn Content.text) } none
      "boom").2 (.fn Content.text) rfl]
    decide
  · exact (c6_promise_rejection initialState {} none "boom").1 rfl

/-- **C3, counterexample.**  The claim says that when the handler matching
the outcome is absent, no notification is created or modified for that
branch.  But for a resolved value with `ok: false` the source calls `create`
without checking `data.error`: here `promise(p, {loading: "L"})` (no error
handler, no success handler) resolves to `{ok: false, status: 500}` and the
loading notification is modified into an error-kind notification with
`undefined` title. -/
theorem c3_silent_noop_counterexample :
    (promiseStart initialState
        (some { loading := some (Content.text "L") })).state.toasts.map
      (fun t => (t.type, t.title, t.updated))
      = [(ToastType.loading, some (Content.text "L"), none)] ∧
    (promiseSettle
        (promiseStart initialState (some { loading := some (Content.text "L") })).state
        { loading := some (Content.text "L") }
        (promiseStart initialState
          (some { loading := some (Content.text "L") })).returnedId
        (.resolved { ok := some false, status := some 500 })).state.toasts.map
      (fun t => (t.type, t.title, t.updated))
      = [(ToastType.error, none, some true)] := by decide

/-- **C3, amended.**  An absent success handler on a plain resolution and an
absent error handler on a rejection are silent no-ops for that branch; but a
resolved value that looks like a failed HTTP response (truthy, with a boolean
`ok` field that is `false`) always triggers an error-kind `create`, with an
`undefined` message when `data.error` is absent. -/
theorem c3_silent_noop_amended (st : ToastState) (d : PromiseData)
    (id : Option ToastId) :
    (∀ e, d.error = none → (promiseBranch st d id (.rejected e)).1 = st) ∧
    (∀ r : ResolvedValue, d.success = none →
      (r.truthy && r.ok == some false) = false →
      (promiseBranch st d id (.resolved r)).1 = st) ∧
    (∀ r : ResolvedValue, (r.truthy && r.ok == some false) = true →
      (promiseBranch st d id (.resolved r)).1 =
        (create st { id := id, type := some .error,
                     message := httpErrorMessage d.error r.status }).2) := by
  refine ⟨?_, ?_, ?_⟩
  · intro e he
    rw [promiseBranch_rejected_none st d id e he]
  · intro r hs hok
    rw [promiseBranch_resolved_noSuccess st d id r hok hs]
  · intro r hok
    rw [promiseBranch_okFalse st d id r hok]

/-- Witness for the amended **C3**: all three cases at concrete inputs. -/
theorem c3_silent_noop_amended_witness :
    (promiseBranch initialState {} none (.rejected "x")).1 = initialState ∧
    (promiseBranch initialState {} none (.resolved {})).1 = initialState ∧
    (promiseBranch initialState {} none
        (.resolved { ok := some false })).1 =
      (create initialState
        { id := none, type := some .error, message := none }).2 := by
  have h := c3_silent_noop_amended initialState {} none
  exact ⟨h.1 "x" rfl, h.2.1 {} rfl (by decide), h.2.2 { ok := some false } (by decide)⟩

/-- **C7, counterexample.**  The claim says `promise(p, {})` never creates a
notification.  But when the promise resolves to `{ok: false, status: 404}`,
the failed-HTTP-response branch runs unconditionally and `create` prepends a
fresh error-kind notification with `undefined` title. -/
theorem c7_no_data_counterexample :
    (promiseStart initialState (some ({} : PromiseData))).returnedId = none ∧
    (promiseRun initialState {}
        (.resolved { ok := some false, status := some 404 })).state.toasts.map
      (fun t => (t.type, t.title))
      = [(ToastType.error, none)] := by decide

/-- **C7, amended.**  `promise(p)` with no data does nothing: it creates no
notification, never forces a thunk argument, and returns `undefined`.
`promise(p, {})` with no handlers returns `undefined` and creates no
notification on a rejection or on a plain resolution — except when the
promise resolves to a failed-HTTP-response-like value (truthy, boolean
`ok = false`), in which case a fresh error-kind notification with `undefined`
title is prepended. -/
theorem c7_no_data_amended (st : ToastState) :
    promiseStart st none = { returnedId := none, state := st, invoked := false } ∧
    ((promiseStart st (some {})).returnedId = none ∧
      (promiseStart st (some {})).state = st) ∧
    (∀ e, (promiseRun st {} (.rejected e)).state = st) ∧
    (∀ r : ResolvedValue, (r.truthy && r.ok == some false) = false →
      (promiseRun st {} (.resolved r)).state = st) ∧
    (∀ r : ResolvedValue, (r.truthy && r.ok == some false) = true →
      (∀ t ∈ st.toasts, t.id ≠ ToastId.num st.counter) →
      (promiseRun st {} (.resolved r)).state.toasts =
        { id := ToastId.num st.counter, title := none, dismissable := true,
          type := ToastType.error, updated := none, component := none,
          extra := [] } :: st.toasts) := by
  refine ⟨rfl, ⟨rfl, rfl⟩, ?_, ?_, ?_⟩
  · intro e
    show (promiseSettle st {} none (.rejected e)).state = st
    rw [promiseSettle_state, promiseBranch_rejected_none st {} none e rfl]
    simp
  · intro r hok
    show (promiseSettle st {} none (.resolved r)).state = st
    rw [promiseSettle_state, promiseBranch_resolved_noSuccess st {} none r hok rfl]
    simp
  · intro r hok hfresh
    show (promiseSettle st {} none (.resolved r)).state.toasts = _
    rw [promiseSettle_state, promiseBranch_okFalse st {} none r hok]
    simp only [Bool.false_eq_true, if_false]
    have hany : st.toasts.any
        (fun t => t.id = (create st { id := none, type := some ToastType.error, message := httpErrorMessage none r.status }).1)
        = false := by
      simp only [List.any_eq_false, decide_eq_true_eq]
      intro t ht
      exact hfresh t ht
    rw [create_toasts_new st _ hany]
    rfl

/-- Witness for the amended **C7**: all cases at concrete inputs. -/
theorem c7_no_data_amended_witness :
    (promiseRun initialState {} (.rejected "x")).state = initialState ∧
    (promiseRun initialState {} (.resolved {})).state = initialState ∧
    (promiseRun initialState {}
        (.resolved { ok := some false })).state.toasts =
      [{ id := ToastId.num 0, title := none, dismissable := true,
         type := ToastType.error, updated := none, component := none,
         extra := [] }] := by
  have h := c7_no_data_amended initialState
  refine ⟨h.2.2.1 "x", h.2.2.2.1 {} (by decide), ?_⟩
  have h5 := h.2.2.2.2 { ok := some false } (by decide) (by simp [initialState])
  simpa [initialState] using h5

/-- **C9, counterexample.**  The claim says `custom` keeps every
caller-supplied id — including the number `0` — and assigns a fresh counter
id only when no id is given.  But `data?.id || toastsCounter++` treats the id
`0` as absent: with `toastsCounter = 5`, `custom(c, {id: 0})` consumes the
counter (now 6) and returns `5`, while `create` still receives `{id: 0}` via
the `...data` spread, so the created notification carries id `0`, not the
returned id. -/
theorem c9_custom_counterexample :
    (custom { counter := 5 } 7 (some { id := some (.num 0) })).1 = ToastId.num 5 ∧
    (custom { counter := 5 } 7 (some { id := some (.num 0) })).2.counter = 6 ∧
    (custom { counter := 5 } 7 (some { id := some (.num 0) })).2.toasts.map ToastT.id
      = [ToastId.num 0] := by decide

/-- **C9, amended.**  `custom(componentRef, data)` keeps and returns a
caller-supplied *truthy* id (a nonzero number or a non-empty string) and
leaves the counter alone; when no id is given it assigns and returns a fresh
monotonic counter id; but for a *falsy* caller id (the number `0` or the
empty string) it consumes and returns a fresh counter id while `create`
still receives the caller's id through the `{component, id, ...data}`
spread.  In all cases the notification is created or merged exactly as the
corresponding `create` call would. -/
theorem c9_custom_amended (st : ToastState) (c : Nat) (od : Option CreateData) :
    (∀ d i, od = some d → d.id = some i → i.isTruthy = true →
      (custom st c od).1 = i ∧
      (custom st c od).2 = (create st (customPassed c od i)).2) ∧
    ((od = none ∨ ∃ d, od = some d ∧ d.id = none) →
      (custom st c od).1 = ToastId.num st.counter ∧
      (custom st c od).2 =
        (create { st with counter := st.counter + 1 }
          (customPassed c od (ToastId.num st.counter))).2) ∧
    (∀ d i, od = some d → d.id = some i → i.isTruthy = false →
      (custom st c od).1 = ToastId.num st.counter ∧
      (custom st c od).2 =
        (create { st with counter := st.counter + 1 }
          (customPassed c od i)).2) := by
  refine ⟨?_, ?_, ?_⟩
  · rintro d i rfl hid htr
    constructor
    · simp [custom, hid, htr]
    · simp [custom, customPassed, hid, htr]
  · rintro (rfl | ⟨d, rfl, hid⟩)
    · exact ⟨rfl, rfl⟩
    · constructor
      · simp [custom, hid]
      · simp [custom, customPassed, hid]
  · rintro d i rfl hid htr
    constructor
    · simp [custom, hid, htr]
    · simp [custom, customPassed, hid, htr]

/-- Witness for the amended **C9**: a kept truthy string id, a fresh counter
id when no id is given, and the falsy empty-string id that still consumes
the counter. -/
theorem c9_custom_amended_witness :
    (custom { counter := 5 } 7 (some { id := some (.str "abc") })).1
      = ToastId.str "abc" ∧
    (custom { counter := 5 } 7 none).1 = ToastId.num 5 ∧
    (custom { counter := 5 } 7 (some { id := some (.str "") })).1
      = ToastId.num 5 := by
  refine ⟨?_, ?_, ?_⟩
  · exact ((c9_custom_amended { counter := 5 } 7
      (some { id := some (.str "abc") })).1
      { id := some (.str "abc") } (.str "abc") rfl rfl (by decide)).1
  · exact ((c9_custom_amended { counter := 5 } 7 none).2.1 (Or.inl rfl)).1
  · exact ((c9_custom_amended { counter := 5 } 7
      (some { id := some (.str "") })).2.2
      { id := some (.str "") } (.str "") rfl rfl (by decide)).1

/-- Witness for **C1**: a two-record registry where `create({id: 2, ...})`
merges into the second record, marks it updated and shadows the extra field
`k` while keeping `j`. -/
theorem c1_create_merge_spec_witness :
    (create { toasts := [{ id := .num 1 },
        { id := .num 2, extra := [("k", "old"), ("j", "x")] }] }
      { id := some (.num 2), extra := [("k", "new")] }).2.toasts.length = 2 ∧
    (create { toasts := [{ id := .num 1 },
        { id := .num 2, extra := [("k", "old"), ("j", "x")] }] }
      { id := some (.num 2), extra := [("k", "new")] }).2.toasts[0]? =
      some { id := ToastId.num 1, updated := some false } ∧
    ((create { toasts := [{ id := .num 1 },
        { id := .num 2, extra := [("k", "old"), ("j", "x")] }] }
      { id := some (.num 2), extra := [("k", "new")] }).2.toasts[1]?.map
        (fun t => (t.updated, lookupExtra t.extra "k", lookupExtra t.extra "j")))
      = some (some true, some "new", some "x") := by
  have h := c1_create_merge_spec
    { toasts := [{ id := .num 1 }, { id := .num 2, extra := [("k", "old"), ("j", "x")] }] }
    { id := some (.num 2), extra := [("k", "new")] }
    ⟨{ id := .num 2, extra := [("k", "old"), ("j", "x")] }, by decide, by decide⟩
  refine ⟨h.1, ?_, ?_⟩
  · simpa using h.2.2.1 0 { id := .num 1 } (by decide) (by decide)
  · obtain ⟨t', ht', _, hu, _, _, _, _, hext⟩ :=
      h.2.2.2 1 { id := .num 2, extra := [("k", "old"), ("j", "x")] } (by decide) (by decide)
    rw [ht']
    have hmap : Option.map
        (fun t : ToastT => (t.updated, lookupExtra t.extra "k", lookupExtra t.extra "j"))
        (some t') =
        some (t'.updated, lookupExtra t'.extra "k", lookupExtra t'.extra "j") := rfl
    rw [hmap, hu, hext "k", hext "j"]
    decide

end Sonner
